import Mathlib

/-!
Verification development for the tira-order-auto bulk session orchestrator.

The definitions below are shallow embeddings of the Python source:
- `get_users_by_range` embeds `TiraUserService.get_users_by_range`
  (backend/app/services/data_service.py); the database table is modelled
  as the list of rows in id-ascending order (the query's `ORDER BY id ASC`),
  and `LIMIT`/`OFFSET` become `List.take`/`List.drop`.
- `JValue`/`jsonParse` model Python JSON values and `json.loads` as used by
  the checkpoint executor for stored cookie bundles.
- `prepare_playwright_cookies` embeds
  `CheckpointExecutor._prepare_playwright_cookies`
  (backend/app/automation/checkpoint_executor.py).
- `make_request_classify` embeds the response classification of
  `CheckpointExecutor._make_request`, and `check_single_user_persists`
  the metric-persistence condition of
  `CheckpointExecutor._check_single_user`.
- `GateState`/`GateStep` model `asyncio.Semaphore` admission control used by
  `OrderExecutor.execute_bulk_order` / `_execute_single_order_with_semaphore`.
- `CkState`/`CkStep` model the checkpoint bulk-task lifecycle
  (`execute_bulk_check` / `_run_bulk_check` / `get_task_status`).
- `execute_single_order` and `bulk_stats` embed
  `OrderExecutor.execute_single_order` and the statistics fold of
  `OrderExecutor.execute_bulk_order` (backend/app/automation/order_executor.py).

Python floats (cart totals, prices) are modelled as exact rationals; the
timing-only delays, log statements and the WebSocket broadcasts' payload
delivery are not modelled (they do not influence control flow).  Store
persistence calls are modelled as total functions (the Store collaborator is
treated as reliable, per its interface contract).
-/

namespace TiraOrderAuto

/-! ## Range resolution (`TiraUserService.get_users_by_range`)

The table rows are given in id-ascending order; `SELECT ... ORDER BY id ASC
LIMIT :limit OFFSET :offset` over that order is `(db.drop offset).take limit`.
-/

def get_users_by_range {α : Type} (start_index end_index : Int) (db : List α) :
    List α :=
  let start_index := if start_index < 1 then 1 else start_index
  let offset := start_index - 1
  let limit := end_index - start_index + 1
  if limit ≤ 0 then []
  else (db.drop offset.toNat).take limit.toNat

/-! ## JSON values and `json.loads`

Python JSON values; numbers keep their lexeme and are interpreted as exact
rationals (Python parses them to int/float, used here only for truthiness,
the `!= -1` test and the `float(...)` conversion on cookie expiry fields).
-/

inductive JValue : Type
  | jnull : JValue
  | jbool : Bool → JValue
  | jnum : String → JValue
  | jstr : String → JValue
  | jarr : List JValue → JValue
  | jobj : List (String × JValue) → JValue

def jLBrace : Char := Char.ofNat 123
def jRBrace : Char := Char.ofNat 125

def isJsonWs (c : Char) : Bool :=
  c = ' ' || c = '\t' || c = '\n' || c = '\r'

def skipWs : List Char → List Char
  | [] => []
  | c :: cs => if isJsonWs c then skipWs cs else c :: cs

def isDigitChar (c : Char) : Bool := '0' ≤ c && c ≤ '9'

def isNumChar (c : Char) : Bool :=
  isDigitChar c || c = '-' || c = '+' || c = '.' || c = 'e' || c = 'E'

/-- Exact rational value of a JSON number lexeme: optional sign, integer
digits, optional fraction, optional exponent. -/
def numLexemeToRat (s : String) : ℚ :=
  let cs := s.toList
  let (sign, cs) :=
    match cs with
    | '-' :: rest => ((-1 : ℚ), rest)
    | rest => ((1 : ℚ), rest)
  let intPart := cs.takeWhile isDigitChar
  let cs := cs.dropWhile isDigitChar
  let intVal : ℚ := intPart.foldl (fun a c => a * 10 + (c.toNat - '0'.toNat)) 0
  let (fracVal, cs) : ℚ × List Char :=
    match cs with
    | '.' :: rest =>
        let fracDigits := rest.takeWhile isDigitChar
        let num : ℚ := fracDigits.foldl (fun a c => a * 10 + (c.toNat - '0'.toNat)) 0
        (num / (10 : ℚ) ^ fracDigits.length, rest.dropWhile isDigitChar)
    | rest => (0, rest)
  let expVal : Int :=
    match cs with
    | 'e' :: rest | 'E' :: rest =>
        let (esign, rest) :=
          match rest with
          | '-' :: r => ((-1 : Int), r)
          | '+' :: r => ((1 : Int), r)
          | r => ((1 : Int), r)
        esign * (rest.takeWhile isDigitChar).foldl
          (fun a c => a * 10 + ((c.toNat : Int) - ('0'.toNat : Int))) 0
    | _ => 0
  sign * (intVal + fracVal) * (10 : ℚ) ^ expVal

/-- Parse a JSON string body after the opening quote, handling the escape
sequences `json.loads` accepts; returns the string and the rest. -/
def parseStrBody : List Char → Option (String × List Char)
  | [] => none
  | '"' :: rest => some ("", rest)
  | '\\' :: e :: rest =>
      let esc : Option Char :=
        if e = '"' then some '"'
        else if e = '\\' then some '\\'
        else if e = '/' then some '/'
        else if e = 'n' then some '\n'
        else if e = 't' then some '\t'
        else if e = 'r' then some '\r'
        else if e = 'b' then some (Char.ofNat 8)
        else if e = 'f' then some (Char.ofNat 12)
        else none
      match esc with
      | none =>
          -- \uXXXX escapes
          if e = 'u' then
            match rest with
            | a :: b :: c :: d :: rest' =>
                let hex (x : Char) : Option Nat :=
                  if isDigitChar x then some (x.toNat - '0'.toNat)
                  else if 'a' ≤ x && x ≤ 'f' then some (x.toNat - 'a'.toNat + 10)
                  else if 'A' ≤ x && x ≤ 'F' then some (x.toNat - 'A'.toNat + 10)
                  else none
                match hex a, hex b, hex c, hex d with
                | some ha, some hb, some hc, some hd =>
                    match parseStrBody rest' with
                    | some (s, r) =>
                        some (String.mk [Char.ofNat (((ha * 16 + hb) * 16 + hc) * 16 + hd)] ++ s, r)
                    | none => none
                | _, _, _, _ => none
            | _ => none
          else none
      | some ch =>
          match parseStrBody rest with
          | some (s, r) => some (String.mk [ch] ++ s, r)
          | none => none
  | c :: rest =>
      match parseStrBody rest with
      | some (s, r) => some (String.mk [c] ++ s, r)
      | none => none

def expectChars : List Char → List Char → Option (List Char)
  | [], cs => some cs
  | e :: es, c :: cs => if c = e then expectChars es cs else none
  | _ :: _, [] => none

mutual

/-- Fuel-indexed JSON value parser modelling `json.loads`'s grammar. -/
def parseVal : Nat → List Char → Option (JValue × List Char)
  | 0, _ => none
  | Nat.succ fuel, cs =>
    match skipWs cs with
    | [] => none
    | c :: rest =>
      if c = 'n' then
        (expectChars ['u', 'l', 'l'] rest).map (fun r => (JValue.jnull, r))
      else if c = 't' then
        (expectChars ['r', 'u', 'e'] rest).map (fun r => (JValue.jbool true, r))
      else if c = 'f' then
        (expectChars ['a', 'l', 's', 'e'] rest).map (fun r => (JValue.jbool false, r))
      else if c = '"' then
        (parseStrBody rest).map (fun (s, r) => (JValue.jstr s, r))
      else if c = '[' then
        match skipWs rest with
        | ']' :: r => some (JValue.jarr [], r)
        | r => (parseArrItems fuel r).map (fun (l, r') => (JValue.jarr l, r'))
      else if c = jLBrace then
        match skipWs rest with
        | r =>
          if r.head? = some jRBrace then some (JValue.jobj [], r.tail)
          else (parseObjItems fuel r).map (fun (l, r') => (JValue.jobj l, r'))
      else if isDigitChar c || c = '-' then
        let lexeme := (c :: rest).takeWhile isNumChar
        let r := (c :: rest).dropWhile isNumChar
        some (JValue.jnum (String.mk lexeme), r)
      else none

/-- Comma-separated array items up to `]`. -/
def parseArrItems : Nat → List Char → Option (List JValue × List Char)
  | 0, _ => none
  | Nat.succ fuel, cs =>
    match parseVal fuel cs with
    | none => none
    | some (v, rest) =>
      match skipWs rest with
      | ',' :: r =>
          match parseArrItems fuel r with
          | some (l, r') => some (v :: l, r')
          | none => none
      | ']' :: r => some ([v], r)
      | _ => none

/-- Comma-separated `"key": value` items up to the closing brace. -/
def parseObjItems : Nat → List Char → Option (List (String × JValue) × List Char)
  | 0, _ => none
  | Nat.succ fuel, cs =>
    match skipWs cs with
    | '"' :: rest =>
      match parseStrBody rest with
      | none => none
      | some (k, rest') =>
        match skipWs rest' with
        | ':' :: rest'' =>
          match parseVal fuel rest'' with
          | none => none
          | some (v, r) =>
            match skipWs r with
            | ',' :: r' =>
                match parseObjItems fuel r' with
                | some (l, r'') => some ((k, v) :: l, r'')
                | none => none
            | r' =>
                if r'.head? = some jRBrace then some ([(k, v)], r'.tail)
                else none
        | _ => none
    | _ => none

end

/-- Model of Python `json.loads`: parse one value and require that only
whitespace remains; a failure raises `JSONDecodeError`, modelled as `none`. -/
def jsonParse (s : String) : Option JValue :=
  match parseVal (s.length + 2) s.toList with
  | some (v, rest) => if skipWs rest = [] then some v else none
  | none => none

/-- Python truthiness of a JSON-decoded value (`if v:`). -/
def jtruthy : JValue → Bool
  | JValue.jnull => false
  | JValue.jbool b => b
  | JValue.jnum s => decide (numLexemeToRat s ≠ 0)
  | JValue.jstr s => decide (s ≠ "")
  | JValue.jarr l => !l.isEmpty
  | JValue.jobj d => !d.isEmpty

/-- Python `str(v)` on a JSON-decoded value, as used on cookie attribute and
points fields.  Container reprs are abbreviated: they never match any of the
finitely many strings the code compares against. -/
def pyStr : JValue → String
  | JValue.jnull => "None"
  | JValue.jbool true => "True"
  | JValue.jbool false => "False"
  | JValue.jnum s => s
  | JValue.jstr s => s
  | JValue.jarr _ => "[container]"
  | JValue.jobj _ => "(container)"

/-- The whitespace `float()` strips from a string argument (`str.strip` /
`isspace`: space, tab, newline, carriage return, vertical tab, form feed). -/
def isPySpace (c : Char) : Bool :=
  c = ' ' || c = '\t' || c = '\n' || c = '\r' || c = Char.ofNat 11 || c = Char.ofNat 12

def digitsToNat (l : List Char) : Nat :=
  l.foldl (fun a c => a * 10 + (c.toNat - '0'.toNat)) 0

/-- Python `float(s)` on a string: strips surrounding whitespace, then
accepts an optional sign, digits with an optional decimal point (at least
one digit overall) and an optional exponent; anything else raises
ValueError, modelled as `none`.  The forms `float` accepts that exact
rationals cannot represent (inf/nan literals) and underscore digit
grouping are mapped to `none` as well: the theorems below only ever rely
on a *successful* conversion, so this boundary never stands in for a
success the program would produce on the inputs they mention. -/
def pyFloatOfString (s : String) : Option ℚ :=
  let cs := ((s.toList.dropWhile isPySpace).reverse.dropWhile isPySpace).reverse
  let (sgn, cs) :=
    match cs with
    | '+' :: r => ((1 : ℚ), r)
    | '-' :: r => ((-1 : ℚ), r)
    | r => ((1 : ℚ), r)
  let intPart := cs.takeWhile isDigitChar
  let cs1 := cs.dropWhile isDigitChar
  let (fracPart, cs2) :=
    match cs1 with
    | '.' :: r => (r.takeWhile isDigitChar, r.dropWhile isDigitChar)
    | r => (([] : List Char), r)
  if intPart.isEmpty && fracPart.isEmpty then none
  else
    let mant : ℚ :=
      sgn * ((digitsToNat intPart : ℚ) +
        (digitsToNat fracPart : ℚ) / (10 : ℚ) ^ fracPart.length)
    match cs2 with
    | [] => some mant
    | 'e' :: r | 'E' :: r =>
        let (esgn, r1) :=
          match r with
          | '+' :: rr => ((1 : Int), rr)
          | '-' :: rr => ((-1 : Int), rr)
          | rr => ((1 : Int), rr)
        let eDigits := r1.takeWhile isDigitChar
        let r2 := r1.dropWhile isDigitChar
        if eDigits.isEmpty || !r2.isEmpty then none
        else some (mant * (10 : ℚ) ^ (esgn * (digitsToNat eDigits : Int)))
    | _ => none

/-- Python `float(v)` on a cookie expiry field: numbers convert exactly,
strings go through the string parse (ValueError on failure), booleans are
ints; `None` and containers raise TypeError.  A failure (`none`) raises out
of `_prepare_playwright_cookies`, which has no surrounding try. -/
def pyFloat : JValue → Option ℚ
  | JValue.jnum s => some (numLexemeToRat s)
  | JValue.jstr s => pyFloatOfString s
  | JValue.jbool true => some 1
  | JValue.jbool false => some 0
  | _ => none

/-- Python `dict.get` on a JSON object: for duplicate keys `json.loads`
keeps the last binding. -/
def objGet (d : List (String × JValue)) (k : String) : Option JValue :=
  ((d.filter (fun p => p.1 = k)).getLast?).map (fun p => p.2)

/-- Python `a or b` over optional JSON values (`c.get("expirationDate") or
c.get("expires")`). -/
def pyOr (a b : Option JValue) : Option JValue :=
  match a with
  | some v => if jtruthy v then some v else b
  | none => b

/-- Python `v == -1` for a JSON-decoded value (only numbers can equal -1). -/
def jEqNegOne : JValue → Bool
  | JValue.jnum s => decide (numLexemeToRat s = -1)
  | _ => false

/-! ## Python exceptions

The source raises plain `Exception`s except for `ValueError` where the
distinction matters (the TOTAL_CHECK raises, `float()` on a bad string);
`PyErr` records which of the two a raise was, plus its message. -/

inductive PyErrKind : Type
  | exceptionErr : PyErrKind
  | valueErr : PyErrKind
  deriving DecidableEq

structure PyErr : Type where
  kind : PyErrKind
  msg : String
  deriving DecidableEq

/-! ## `CheckpointExecutor._prepare_playwright_cookies` -/

/-- The raw `cookies` column value handed to `_prepare_playwright_cookies`:
Python `None`, a string, a JSON-decoded list, or a JSON-decoded mapping. -/
inductive RawCookies : Type
  | rnone : RawCookies
  | rstr : String → RawCookies
  | rlist : List JValue → RawCookies
  | rdict : List (String × JValue) → RawCookies

/-- Python falsiness of the raw bundle (`if not raw_cookies:`). -/
def rawFalsy : RawCookies → Bool
  | RawCookies.rnone => true
  | RawCookies.rstr s => decide (s = "")
  | RawCookies.rlist l => l.isEmpty
  | RawCookies.rdict d => d.isEmpty

/-- A cookie in the transport format handed to the Automation Driver
(`pw_cookie` in the source).  `name`/`value` keep the raw JSON values the
entry carried; optional attributes are kept only when mapped. -/
structure PwCookie : Type where
  name : JValue
  value : JValue
  domain : JValue
  path : JValue
  expires : Option ℚ
  httpOnly : Option Bool
  secure : Option Bool
  sameSite : String

/-- Python `str.lower()` (the compared keys are all ASCII). -/
def pyLower (s : String) : String :=
  String.mk (s.toList.map Char.toLower)

def same_site_map (s : String) : Option String :=
  if s = "no_restriction" then some "None"
  else if s = "none" then some "None"
  else if s = "lax" then some "Lax"
  else if s = "strict" then some "Strict"
  else none

/-- The PwCookie record fields apart from expiry, as built by the loop. -/
def mkPwCookie (d : List (String × JValue)) (n v : JValue) (expires : Option ℚ) :
    PwCookie :=
  { name := n
    value := v
    domain := (objGet d "domain").getD (JValue.jstr ".www.tirabeauty.com")
    path := (objGet d "path").getD (JValue.jstr "/")
    expires := expires
    httpOnly := (objGet d "httpOnly").map jtruthy
    secure := (objGet d "secure").map jtruthy
    sameSite :=
      (same_site_map (pyLower (pyStr ((objGet d "sameSite").getD
        (JValue.jstr "Lax"))))).getD "Lax" }

/-- One loop body of `_prepare_playwright_cookies`: entries that are not
mappings or lack `name`/`value` are skipped (`continue`, modelled `ok
none`); a truthy non-numeric expiry value makes `float(expires)` raise
(ValueError for a string, TypeError otherwise), which escapes the function
(modelled `error`). -/
def cookieOfJson (c : JValue) : Except PyErr (Option PwCookie) :=
  match c with
  | JValue.jobj d =>
    match objGet d "name", objGet d "value" with
    | some n, some v =>
        let expiresRaw := pyOr (objGet d "expirationDate") (objGet d "expires")
        match expiresRaw with
        | some e =>
          if jtruthy e && !jEqNegOne e then
            match pyFloat e with
            | some q => Except.ok (some (mkPwCookie d n v (some q)))
            | none =>
                match e with
                | JValue.jstr _ =>
                    Except.error
                      ⟨PyErrKind.valueErr, "could not convert string to float"⟩
                | _ =>
                    Except.error
                      ⟨PyErrKind.exceptionErr,
                        "float() argument must be a string or a real number"⟩
          else Except.ok (some (mkPwCookie d n v none))
        | none => Except.ok (some (mkPwCookie d n v none))
    | _, _ => Except.ok none
  | _ => Except.ok none

/-- The cookie loop: skipped entries contribute nothing, the first raising
entry aborts the whole function (the partially built list is discarded). -/
def prepareCookiesLoop : List JValue → Except PyErr (List PwCookie)
  | [] => Except.ok []
  | c :: rest =>
    match cookieOfJson c with
    | Except.error e => Except.error e
    | Except.ok none => prepareCookiesLoop rest
    | Except.ok (some pc) =>
        match prepareCookiesLoop rest with
        | Except.error e => Except.error e
        | Except.ok l => Except.ok (pc :: l)

/-- The intermediate `cookie_list` of `_prepare_playwright_cookies`: a string
is `json.loads`-decoded (a list is kept, a mapping is wrapped in a singleton
list, a decode failure or any other decoded value leaves the list empty). -/
def cookieListOf : RawCookies → List JValue
  | RawCookies.rnone => []
  | RawCookies.rstr s =>
      match jsonParse s with
      | some (JValue.jarr l) => l
      | some (JValue.jobj d) => [JValue.jobj d]
      | some _ => []
      | none => []
  | RawCookies.rlist l => l
  | RawCookies.rdict d => [JValue.jobj d]

def prepare_playwright_cookies (raw : RawCookies) : Except PyErr (List PwCookie) :=
  if rawFalsy raw then Except.ok []
  else prepareCookiesLoop (cookieListOf raw)

/-! ## `CheckpointExecutor._make_request` response classification and
`_check_single_user` metric persistence -/

/-- The fields of a `tira_users` row that the checkpoint pipeline reads. -/
structure CkUser : Type where
  id : Int
  name : Option String
  email : Option String
  cookies : RawCookies

/-- `CheckpointResult` (backend/app/models/checkpoint.py), restricted to the
fields the executor sets. -/
structure CkResult : Type where
  user_id : Int
  username : Option String
  email : Option String
  status : String
  points : Option String
  account_name : Option String
  error : Option String

/-- Classification of the account-status fetch response inside
`_make_request`: `resp` is the HTTP status and body text of the API call. -/
def classify_response (user : CkUser) (respStatus : Nat) (respBody : String) :
    CkResult :=
  -- running values (initialized "N/A", "N/A", "success", None in the source):
  -- points, account_name, status, error_msg
  let (points, account_name, status, error_msg) :=
    if respStatus = 200 then
      match jsonParse respBody with
      | none => ("N/A", "N/A", "failed", some "Invalid JSON response")
      | some data =>
        match data with
        | JValue.jobj dt =>
          -- `data.get('success') is True`
          match objGet dt "success" with
          | some (JValue.jbool true) =>
            match (objGet dt "data").getD (JValue.jobj []) with
            | JValue.jobj dataObj =>
              let pointSummary :=
                match (objGet dataObj "pointSummary").getD (JValue.jobj []) with
                | JValue.jobj ps => ps
                | _ => []
              let points :=
                match objGet pointSummary "available" with
                | some av => pyStr av
                | none => "N/A"
              let userTier :=
                match (objGet dataObj "userTier").getD (JValue.jobj []) with
                | JValue.jobj ut => ut
                | _ => []
              let account_name :=
                match objGet userTier "name" with
                | some tn => if jtruthy tn then pyStr tn else "N/A"
                | none => "N/A"
              (points, account_name, "success", none)
            | _ => ("N/A", "N/A", "failed", some "Unexpected error")
          | _ =>
            ("N/A", "N/A", "failed",
              some ("API returned success=False: " ++
                (((objGet dt "message").map pyStr).getD "Unknown error")))
        | _ => ("N/A", "N/A", "failed", some "Unexpected error")
    else if respStatus = 401 ∨ respStatus = 403 then
      ("N/A", "N/A", "logged_out",
        some ("Authentication failed (HTTP " ++ toString respStatus ++
          "). User needs to re-login."))
    else if respStatus = 302 then
      ("N/A", "N/A", "logged_out", some "Redirect detected (session expired?)")
    else
      ("N/A", "N/A", "failed",
        some ("API Error HTTP " ++ toString respStatus))
  { user_id := user.id
    username := user.name
    email := user.email
    status := status
    points := some points
    account_name := if account_name ≠ "N/A" then some account_name else user.name
    error := error_msg }

/-- `_make_request`: a raise inside cookie preparation reaches the
catch-all at the bottom of the function (status failed, Unexpected error,
with the running `points = "N/A"`); empty prepared cookies short-circuit to
a failed result (with the default `points = None`); otherwise the response
is classified. -/
def make_request (user : CkUser) (respStatus : Nat) (respBody : String) :
    CkResult :=
  match prepare_playwright_cookies user.cookies with
  | Except.error e =>
      { user_id := user.id
        username := user.name
        email := user.email
        status := "failed"
        points := some "N/A"
        account_name := user.name
        error := some ("Unexpected error: " ++ e.msg) }
  | Except.ok pw_cookies =>
    if pw_cookies.isEmpty then
      { user_id := user.id
        username := user.name
        email := user.email
        status := "failed"
        points := none
        account_name := none
        error := some "No cookies found" }
    else
      classify_response user respStatus respBody

/-- The metric-persistence guard of `_check_single_user`:
`if result.points and result.points != "N/A"` — only then is
`user_service.update_user_points` called. -/
def check_single_user_persists (r : CkResult) : Bool :=
  match r.points with
  | none => false
  | some p => decide (p ≠ "") && decide (p ≠ "N/A")

/-! ## The concurrency gate (`asyncio.Semaphore` admission control)

`execute_bulk_order` creates `asyncio.Semaphore(config.concurrent_browsers)`
and wraps each `_execute_single_order_with_semaphore` body in
`async with semaphore`.  The cooperative scheduler is modelled as an
arbitrary interleaving of `acquire` (enter the `async with`, only possible
while a slot is free) and `release` (leave it, the slot freed
unconditionally — also on exception exit). -/

inductive Phase : Type
  | waiting : Phase
  | running : Phase
  | done : Phase
  deriving DecidableEq

structure GateState : Type where
  tasks : List Phase
  avail : Nat
  deriving DecidableEq

/-- All invocations created and queued, no slot taken yet:
`Semaphore(limit)` holds `limit` free slots. -/
def gateInit (limit n : Nat) : GateState :=
  { tasks := List.replicate n Phase.waiting, avail := limit }

/-- One scheduler step: a waiting invocation acquires the semaphore (only
when a slot is free), or a running invocation exits and releases it. -/
inductive GateStep : GateState → GateState → Prop
  | acquire (s : GateState) (i : Nat)
      (h : s.tasks.get? i = some Phase.waiting) (ha : 0 < s.avail) :
      GateStep s { tasks := s.tasks.set i Phase.running, avail := s.avail - 1 }
  | release (s : GateState) (i : Nat)
      (h : s.tasks.get? i = some Phase.running) :
      GateStep s { tasks := s.tasks.set i Phase.done, avail := s.avail + 1 }

/-- States reachable by the cooperative scheduler from the bulk dispatch of
`n` bounded invocations under concurrency limit `limit`. -/
def GateReach (limit n : Nat) (s : GateState) : Prop :=
  Relation.ReflTransGen GateStep (gateInit limit n) s

/-- Number of simultaneously processing SessionRunner invocations. -/
def runningCount (s : GateState) : Nat :=
  s.tasks.count Phase.running

/-! ## Checkpoint bulk-task lifecycle
(`execute_bulk_check`, `_run_bulk_check`, `get_task_status`)

`processed` mirrors `len(self.results[task_id])` and `total` the mutable
`active_tasks[task_id]["total"]` entry.  Store persistence inside
`_check_single_user` is modelled as non-raising (each user task appends
exactly one result; the task count after range resolution equals `total`,
which justifies the bound on `append` events). -/

inductive TStatus : Type
  | processing : TStatus
  | completed : TStatus
  | failed : TStatus
  deriving DecidableEq

structure CkState : Type where
  status : TStatus
  total : Int
  processed : Nat
  resolved : Bool
  deriving DecidableEq

/-- `execute_bulk_check`: the task record starts processing, with
`total = user_range_end - user_range_start + 1` and no results. -/
def ckInit (rangeStart rangeEnd : Int) : CkState :=
  { status := TStatus.processing
    total := rangeEnd - rangeStart + 1
    processed := 0
    resolved := false }

/-- Events of `_run_bulk_check`:
- `startupFail`: range resolution found no users (or raised) — the task is
  failed before any result exists;
- `resolve`: `n ≥ 1` users found, `total` updated to `len(users)` before any
  user task starts;
- `append`: one user task records its single result (at most `total` of
  these exist after resolution);
- `complete`: after `gather`, i.e. once every user task appended. -/
inductive CkStep : CkState → CkState → Prop
  | startupFail (s : CkState)
      (h : s.status = TStatus.processing) (hr : s.resolved = false) :
      CkStep s { s with status := TStatus.failed }
  | resolve (s : CkState) (n : Nat) (hn : 0 < n)
      (h : s.status = TStatus.processing) (hr : s.resolved = false) :
      CkStep s { s with total := (n : Int), resolved := true }
  | append (s : CkState)
      (h : s.status = TStatus.processing) (hr : s.resolved = true)
      (hp : (s.processed : Int) < s.total) :
      CkStep s { s with processed := s.processed + 1 }
  | complete (s : CkState)
      (h : s.status = TStatus.processing) (hr : s.resolved = true)
      (hp : (s.processed : Int) = s.total) :
      CkStep s { s with status := TStatus.completed }

def CkReach (s0 s : CkState) : Prop :=
  Relation.ReflTransGen CkStep s0 s

/-- `get_task_status`: status, progress (`len(results)`), total. -/
def get_task_status (s : CkState) : TStatus × Nat × Int :=
  (s.status, s.processed, s.total)

/-! ## Order pipeline (`OrderExecutor.execute_single_order` and the
statistics fold of `execute_bulk_order`)

Python exceptions are modelled as `PyErr` values (the source raises plain
`Exception`s except for the two `ValueError`s of the TOTAL_CHECK step, which
is the distinction the error taxonomy classifies on).  The Automation
Driver (browser page plus handlers) is a per-repetition stub of the handler
calls; pacing delays, log statements and the random display-name lookup
(which only rewrites the address snapshot name) are not modelled, as they do
not influence control flow. -/

inductive PaymentKind : Type
  | cash_on_delivery : PaymentKind
  | upi : PaymentKind
  | card : PaymentKind
  deriving DecidableEq

inductive ExecMode : Type
  | full_automation : ExecMode
  | test_login_mode : ExecMode
  deriving DecidableEq

/-- The `OrderConfig` fields `execute_single_order` branches on. -/
structure OrderCfg : Type where
  payment_method : PaymentKind
  card_id : Option String
  has_card_details : Bool
  max_cart_value : Option ℚ
  repetition_count : Nat
  numProducts : Nat
  address_id : String
  mode : ExecMode
  deriving DecidableEq

/-- Stub of one repetition's Automation Driver interactions (the handler
calls made between ADDRESS_CLEAR and CONFIRM); each call either returns or
raises. -/
structure RepDriver : Type where
  clearAddresses : Except PyErr Nat
  clearCart : Except PyErr Nat
  addProduct : Nat → Except PyErr Bool
  gotoCart : Except PyErr Unit
  applyCoupon : Except PyErr Bool
  getCartTotal : Except PyErr ℚ
  addAddress : Except PyErr Bool
  placeOrder : Except PyErr (Option String)
  pageClosedAfterFail : Bool

/-- The product-add loop: `add_product_to_cart` returning `False` raises. -/
def addProductsLoop (d : RepDriver) : Nat → Nat → Except PyErr Unit
  | 0, _ => Except.ok ()
  | Nat.succ remaining, idx => do
      let ok ← d.addProduct idx
      if ok then addProductsLoop d remaining (idx + 1)
      else throw { kind := PyErrKind.exceptionErr, msg := "Failed to add product" }

/-- The step sequence of one repetition inside the inner `try` (after the
order record was created): address cleanup, cart cleanup, product adds, cart
verification, coupon, TOTAL_CHECK, address add, payment submission.  Returns
the confirmation number and the observed cart total. -/
def run_repetition_steps (cfg : OrderCfg) (d : RepDriver) :
    Except PyErr (String × ℚ) := do
  let _ ← d.clearAddresses
  let _ ← d.clearCart
  addProductsLoop d cfg.numProducts 0
  let _ ← d.gotoCart
  let _ ← d.applyCoupon
  let cart_total ← d.getCartTotal
  -- TOTAL_CHECK, the two ValueError raises of the source.  The ceiling
  -- guard is `if config.max_cart_value and cart_total > ...`: Python
  -- truthiness, so a missing ceiling — or a configured ceiling of 0.0,
  -- which is falsy — skips the comparison entirely.
  match cfg.max_cart_value with
  | some m =>
      if m ≠ 0 then
        if cart_total > m then
          throw { kind := PyErrKind.valueErr, msg := "Cart total exceeds limit" }
        else pure ()
      else pure ()
  | none => pure ()
  if cart_total ≤ 0 then
    throw { kind := PyErrKind.valueErr, msg := "Cart total is invalid or zero" }
  else pure ()
  let okAddr ← d.addAddress
  if okAddr then pure ()
  else throw { kind := PyErrKind.exceptionErr, msg := "Failed to add delivery address" }
  let conf ← d.placeOrder
  match conf with
  | none => throw { kind := PyErrKind.exceptionErr, msg := "Failed to place order" }
  | some c => pure (c, cart_total)

inductive OrderStat : Type
  | pending : OrderStat
  | processing : OrderStat
  | completed : OrderStat
  | failed : OrderStat
  deriving DecidableEq

def OrderStat.isTerminal : OrderStat → Bool
  | OrderStat.completed => true
  | OrderStat.failed => true
  | _ => false

/-- One per-repetition entry of the `results` list built by
`execute_single_order`. -/
inductive RepResult : Type
  | completedRep : String → ℚ → RepResult
  | failedRep : PyErr → RepResult
  | testLoginDone : RepResult
  deriving DecidableEq

/-- One repetition with its Order record: the Order is created `pending`,
set `processing`, and ends `completed` (with confirmation and total) or, on
any step raising, `failed` with the captured error. -/
def run_repetition_recorded (cfg : OrderCfg) (d : RepDriver) :
    RepResult × OrderStat :=
  match run_repetition_steps cfg d with
  | Except.ok (conf, t) => (RepResult.completedRep conf t, OrderStat.completed)
  | Except.error e => (RepResult.failedRep e, OrderStat.failed)

/-- Per-repetition dependency resolution (address, then card), performed
inside the repetition loop but before the per-repetition `try`: a miss
raises to the session-level handler. -/
def resolve_deps (cfg : OrderCfg) (addr : Option Unit) (cardRow : Option Unit) :
    Except PyErr Unit := do
  match addr with
  | none =>
      throw { kind := PyErrKind.exceptionErr
              msg := "Address not found: " ++ cfg.address_id }
  | some _ => pure ()
  if cfg.payment_method = PaymentKind.card then
    match cfg.card_id with
    | some cid =>
        match cardRow with
        | none => throw { kind := PyErrKind.exceptionErr, msg := "Card not found: " ++ cid }
        | some _ => pure ()
    | none =>
        if cfg.has_card_details then pure ()
        else throw { kind := PyErrKind.exceptionErr
                     msg := "Card payment method selected but no card_id or card_details provided" }
  else pure ()

/-- What a single bounded invocation returns: the session-level `except`
returns one synthetic failed dict, otherwise the list of per-repetition
results. -/
inductive SessionOut : Type
  | sessionFail : String → SessionOut
  | sessionResults : List RepResult → SessionOut
  deriving DecidableEq

/-- The repetition loop of `execute_single_order`.  `addrLookup`/`cardLookup`
give the Store lookup results at each repetition index; a dependency miss
escapes to the session-level handler (discarding the accumulated result
list from the return value); a failed repetition continues unless the page
reports itself closed.  The second component records every created Order's
final status. -/
def session_loop (cfg : OrderCfg) (drivers : Nat → RepDriver)
    (addrLookup cardLookup : Nat → Option Unit) :
    Nat → Nat → List RepResult → List OrderStat →
      SessionOut × List OrderStat
  | 0, _, acc, orders => (SessionOut.sessionResults acc.reverse, orders.reverse)
  | Nat.succ remaining, i, acc, orders =>
    match resolve_deps cfg (addrLookup i) (cardLookup i) with
    | Except.error e =>
        (SessionOut.sessionFail ("Session initialization failed: " ++ e.msg),
          orders.reverse)
    | Except.ok _ =>
      match run_repetition_recorded cfg (drivers i) with
      | (res, ost) =>
        match res with
        | RepResult.failedRep _ =>
          if (drivers i).pageClosedAfterFail then
            -- browser page closed unexpectedly: abort remaining repetitions
            (SessionOut.sessionResults (res :: acc).reverse,
              (ost :: orders).reverse)
          else
            session_loop cfg drivers addrLookup cardLookup remaining (i + 1)
              (res :: acc) (ost :: orders)
        | _ =>
            session_loop cfg drivers addrLookup cardLookup remaining (i + 1)
              (res :: acc) (ost :: orders)

/-- `execute_single_order`: setup (browser launch, cookie load, navigation,
login verification) happens once; a setup failure or any exception escaping
the repetition loop yields one synthetic failed outcome for the account;
TEST_LOGIN mode exits after AUTH with a single synthetic completed result. -/
def execute_single_order (cfg : OrderCfg) (setup : Except PyErr Unit)
    (drivers : Nat → RepDriver) (addrLookup cardLookup : Nat → Option Unit) :
    SessionOut × List OrderStat :=
  match setup with
  | Except.error e =>
      (SessionOut.sessionFail ("Session initialization failed: " ++ e.msg), [])
  | Except.ok _ =>
    if cfg.mode = ExecMode.test_login_mode then
      (SessionOut.sessionResults [RepResult.testLoginDone], [])
    else
      session_loop cfg drivers addrLookup cardLookup cfg.repetition_count 0 [] []

/-! ## Bulk statistics fold of `execute_bulk_order`

`asyncio.gather(..., return_exceptions=True)` yields per task either the
captured exception, or the task's return value (a dict for a session-level
failure, a list of per-repetition results otherwise).  The statistics loop
dispatches on `isinstance`. -/

inductive GatherItem : Type
  | gexc : PyErr → GatherItem
  | gdict : String → Option String → GatherItem
  | glist : List RepResult → GatherItem
  deriving DecidableEq

def toGatherItem : SessionOut → GatherItem
  | SessionOut.sessionFail msg => GatherItem.gdict "failed" (some msg)
  | SessionOut.sessionResults l => GatherItem.glist l

structure BulkStats : Type where
  successful : Nat
  failed : Nat
  errors : Nat
  deriving DecidableEq

def statsAdd (a b : BulkStats) : BulkStats :=
  { successful := a.successful + b.successful
    failed := a.failed + b.failed
    errors := a.errors + b.errors }

/-- One pass of the statistics loop: an exception counts as an error; a dict
counts as successful iff its status is completed, else failed; anything else
(in particular the per-repetition result *list* a successful session
returns) falls to the `errors += 1` branch. -/
def statContrib : GatherItem → BulkStats
  | GatherItem.gexc _ => { successful := 0, failed := 0, errors := 1 }
  | GatherItem.gdict st _ =>
      if st = "completed" then { successful := 1, failed := 0, errors := 0 }
      else { successful := 0, failed := 1, errors := 0 }
  | GatherItem.glist _ => { successful := 0, failed := 0, errors := 1 }

/-- The aggregate statistics computed and broadcast at BULK_COMPLETE. -/
def bulk_stats (l : List GatherItem) : BulkStats :=
  l.foldl (fun s it => statsAdd s (statContrib it))
    { successful := 0, failed := 0, errors := 0 }

/-! ## Concrete scenario inputs (used by witnesses and counterexamples) -/

/-- The name/value pair carried by a credential entry, when the entry is a
mapping holding both keys (the retention condition of the cookie loop). -/
def entryNameValue (c : JValue) : Option (JValue × JValue) :=
  match c with
  | JValue.jobj d =>
    match objGet d "name", objGet d "value" with
    | some n, some v => some (n, v)
    | _, _ => none
  | _ => none

/-- Stub driver whose every step succeeds (Scenario A). -/
def alwaysSucceedDriver : RepDriver :=
  { clearAddresses := Except.ok 0
    clearCart := Except.ok 0
    addProduct := fun _ => Except.ok true
    gotoCart := Except.ok ()
    applyCoupon := Except.ok true
    getCartTotal := Except.ok 100
    addAddress := Except.ok true
    placeOrder := Except.ok (some "FN123")
    pageClosedAfterFail := false }

/-- Scenario A configuration: COD, one product, one repetition, no ceiling. -/
def scenarioACfg : OrderCfg :=
  { payment_method := PaymentKind.cash_on_delivery
    card_id := none
    has_card_details := false
    max_cart_value := none
    repetition_count := 1
    numProducts := 1
    address_id := "addr-1"
    mode := ExecMode.full_automation }

/-- Configuration with two repetitions (dependency-miss scenario). -/
def twoRepCfg : OrderCfg :=
  { scenarioACfg with repetition_count := 2 }

/-- Configuration with a max-cart-value ceiling of 500 (Scenario C). -/
def ceilingCfg : OrderCfg :=
  { scenarioACfg with max_cart_value := some 500 }

/-- Configuration with a configured max-cart-value ceiling of 0.0 — a value
the config model permits (`Field(None, ge=0)`) and the route passes through
unchanged. -/
def zeroCeilingCfg : OrderCfg :=
  { scenarioACfg with max_cart_value := some 0 }

/-- Stub driver observing a cart total of 999 (Scenario C). -/
def overTotalDriver : RepDriver :=
  { alwaysSucceedDriver with getCartTotal := Except.ok 999 }

/-- A checkpoint account with one well-formed stored cookie. -/
def ckUserA : CkUser :=
  { id := 7
    name := some "u"
    email := none
    cookies := RawCookies.rlist
      [JValue.jobj [("name", JValue.jstr "f.session"), ("value", JValue.jstr "x")]] }

/-- The driver cookie `ckUserA`'s stored entry prepares to. -/
def ckUserACookie : PwCookie :=
  { name := JValue.jstr "f.session"
    value := JValue.jstr "x"
    domain := JValue.jstr ".www.tirabeauty.com"
    path := JValue.jstr "/"
    expires := none
    httpOnly := none
    secure := none
    sameSite := "Lax" }

/-- Card payment configuration referencing a stored card. -/
def cardCfg : OrderCfg :=
  { scenarioACfg with
    payment_method := PaymentKind.card
    card_id := some "card-9" }

/-- A credential bundle whose entry carries name/value plus a truthy
non-numeric expiry (a date-string export format): `float(expires)` raises
on it. -/
def dateExpiryBundle : RawCookies :=
  RawCookies.rlist
    [JValue.jobj
      [("name", JValue.jstr "a"), ("value", JValue.jstr "b"),
        ("expires", JValue.jstr "2026-01-15T00:00:00Z")]]

/-- A JSON-string bundle with one complete entry and one lacking `value`. -/
def c9WitnessBundle : RawCookies :=
  RawCookies.rstr
    "[\x7b\"name\":\"a\",\"value\":\"b\"\x7d,\x7b\"name\":\"c\"\x7d]"

/-- The driver cookie the complete entry of `c9WitnessBundle` produces. -/
def c9WitnessCookie : PwCookie :=
  { name := JValue.jstr "a"
    value := JValue.jstr "b"
    domain := JValue.jstr ".www.tirabeauty.com"
    path := JValue.jstr "/"
    expires := none
    httpOnly := none
    secure := none
    sameSite := "Lax" }

/-! # Theorems -/

/-! ## Helper lemmas -/

theorem get_users_by_range_eq {α : Type} (s e : Int) (db : List α) :
    get_users_by_range s e db =
      (db.drop (max s 1 - 1).toNat).take (e - max s 1 + 1).toNat := by
  have hstart : (if s < 1 then 1 else s) = max s 1 := by
    by_cases h : s < 1
    · simp only [if_pos h]
      omega
    · simp only [if_neg h]
      omega
  simp only [get_users_by_range, hstart]
  by_cases hl : e - max s 1 + 1 ≤ 0
  · rw [if_pos hl, Int.toNat_of_nonpos hl, List.take_zero]
  · rw [if_neg hl]

/-! ## C3: range resolution count -/

/-- Claim C3 counterexample: with 4 stored accounts and requested range [3,5] the
code returns 2 accounts (the rows at offsets 2 and 3), not
min(end-start+1, available) = min(3,4) = 3 as the claim states. -/
theorem c3_range_min_formula_cx :
    ¬ (((get_users_by_range 3 5 ([10, 20, 30, 40] : List Nat)).length : Int) =
        min ((5 : Int) - 3 + 1) (([10, 20, 30, 40] : List Nat).length : Int)) := by
  decide

/-- Claim C3 amended: range resolution over [start, end] returns the overlap of
the clamped window with the stored rows — exactly
max(0, min(end - start* + 1, available - (start* - 1))) accounts where
start* = max(start, 1) — and the result is the contiguous id-ascending
slice of the Store ordering beginning at offset start* - 1. -/
theorem c3_range_resolution_amended {α : Type} (s e : Int) (db : List α) :
    get_users_by_range s e db =
      (db.drop (max s 1 - 1).toNat).take (e - max s 1 + 1).toNat ∧
    ((get_users_by_range s e db).length : Int) =
      max 0 (min (e - max s 1 + 1) ((db.length : Int) - (max s 1 - 1))) := by
  refine ⟨get_users_by_range_eq s e db, ?_⟩
  rw [get_users_by_range_eq, List.length_take, List.length_drop]
  have h1 : (((e - max s 1 + 1).toNat : Nat) : Int) = max (e - max s 1 + 1) 0 :=
    Int.toNat_eq_max _
  have h2 : (((max s 1 - 1).toNat : Nat) : Int) = max (max s 1 - 1) 0 :=
    Int.toNat_eq_max _
  have h3 : (1 : Int) ≤ max s 1 := le_max_right s 1
  omega

/-! ## C10: start clamping and empty window -/

/-- Claim C10: a start index below 1 is clamped to 1 before the window is
computed, and a non-positive window size (end before the clamped start)
yields the empty list for every database state (no query is issued). -/
theorem c10_range_clamp_and_empty_window {α : Type} (s e : Int) (db : List α) :
    (s < 1 → get_users_by_range s e db = get_users_by_range 1 e db) ∧
    (e - max s 1 + 1 ≤ 0 → get_users_by_range s e db = []) := by
  constructor
  · intro hs
    rw [get_users_by_range_eq, get_users_by_range_eq]
    have : max s 1 = max 1 1 := by omega
    rw [this]
  · intro hl
    rw [get_users_by_range_eq, Int.toNat_of_nonpos hl, List.take_zero]

/-- Witness for C10 at concrete inputs: start 0 is treated as 1, and the
inverted range [5,3] yields no accounts. -/
theorem c10_range_clamp_and_empty_window_witness :
    get_users_by_range 0 2 ([10, 20, 30] : List Nat) =
      get_users_by_range 1 2 ([10, 20, 30] : List Nat) ∧
    get_users_by_range 5 3 ([10, 20, 30] : List Nat) = [] :=
  ⟨(c10_range_clamp_and_empty_window 0 2 [10, 20, 30]).1 (by decide),
   (c10_range_clamp_and_empty_window 5 3 [10, 20, 30]).2 (by decide)⟩

/-! ## C9: credential bundle normalization -/

theorem cookieOfJson_ok_none (c : JValue) (h : cookieOfJson c = Except.ok none) :
    entryNameValue c = none := by
  cases c with
  | jobj d =>
      simp only [cookieOfJson] at h
      simp only [entryNameValue]
      cases hn : objGet d "name" with
      | none => simp [hn]
      | some n =>
          cases hv : objGet d "value" with
          | none => simp [hn, hv]
          | some v =>
              exfalso
              simp only [hn, hv] at h
              cases hex : pyOr (objGet d "expirationDate") (objGet d "expires") with
              | none => simp [hex] at h
              | some e_ =>
                  simp only [hex] at h
                  by_cases ht : (jtruthy e_ && !jEqNegOne e_) = true
                  · simp only [if_pos ht] at h
                    cases hp : pyFloat e_ with
                    | some q => simp [hp] at h
                    | none =>
                        simp only [hp] at h
                        cases e_ <;> simp_all
                  · simp only [if_neg ht] at h
                    simp at h
  | jnull => rfl
  | jbool b => rfl
  | jnum s => rfl
  | jstr s => rfl
  | jarr l => rfl

theorem cookieOfJson_ok_some (c : JValue) (pc : PwCookie)
    (h : cookieOfJson c = Except.ok (some pc)) :
    entryNameValue c = some (pc.name, pc.value) := by
  cases c with
  | jobj d =>
      simp only [cookieOfJson] at h
      simp only [entryNameValue]
      cases hn : objGet d "name" with
      | none => simp [hn] at h
      | some n =>
          cases hv : objGet d "value" with
          | none => simp [hn, hv] at h
          | some v =>
              simp only [hn, hv] at h
              cases hex : pyOr (objGet d "expirationDate") (objGet d "expires") with
              | none =>
                  simp only [hex, Except.ok.injEq, Option.some.injEq] at h
                  subst h
                  simp [hn, hv, mkPwCookie]
              | some e_ =>
                  simp only [hex] at h
                  by_cases ht : (jtruthy e_ && !jEqNegOne e_) = true
                  · simp only [if_pos ht] at h
                    cases hp : pyFloat e_ with
                    | some q =>
                        simp only [hp, Except.ok.injEq, Option.some.injEq] at h
                        subst h
                        simp [hn, hv, mkPwCookie]
                    | none =>
                        simp only [hp] at h
                        cases e_ <;> simp_all
                  · simp only [if_neg ht, Except.ok.injEq, Option.some.injEq] at h
                    subst h
                    simp [hn, hv, mkPwCookie]
  | jnull => simp [cookieOfJson] at h
  | jbool b => simp [cookieOfJson] at h
  | jnum s => simp [cookieOfJson] at h
  | jstr s => simp [cookieOfJson] at h
  | jarr l => simp [cookieOfJson] at h

theorem prepareCookiesLoop_ok_map :
    ∀ (l : List JValue) (pw : List PwCookie),
      prepareCookiesLoop l = Except.ok pw →
      pw.map (fun pc => (pc.name, pc.value)) = l.filterMap entryNameValue := by
  intro l
  induction l with
  | nil =>
      intro pw h
      simp only [prepareCookiesLoop, Except.ok.injEq] at h
      subst h
      rfl
  | cons c rest ih =>
      intro pw h
      simp only [prepareCookiesLoop] at h
      cases hc : cookieOfJson c with
      | error e => rw [hc] at h; simp at h
      | ok opt =>
          rw [hc] at h
          cases opt with
          | none =>
              rw [List.filterMap_cons_none (cookieOfJson_ok_none c hc)]
              exact ih pw h
          | some pc =>
              cases hrest : prepareCookiesLoop rest with
              | error e => rw [hrest] at h; simp at h
              | ok l2 =>
                  rw [hrest] at h
                  simp only [Except.ok.injEq] at h
                  subst h
                  rw [List.filterMap_cons_some (cookieOfJson_ok_some c pc hc)]
                  simp only [List.map_cons]
                  rw [ih l2 hrest]

/-- Claim C9 counterexample: a semicolon-delimited cookie string carries the
name/value pair f.session=abc, yet credential preparation yields no driver
cookies at all — the string encoding accepted is JSON, and a
semicolon-delimited string is not valid JSON. -/
theorem c9_semicolon_string_cx :
    prepare_playwright_cookies (RawCookies.rstr "f.session=abc; other=1") =
      Except.ok [] ∧
    jsonParse "f.session=abc; other=1" = none := by
  exact ⟨rfl, rfl⟩

/-- Claim C9 amended: credential preparation accepts a structured list, a
single mapping, or a JSON string decoding to either (a non-JSON string — in
particular a semicolon-delimited one — yields no cookies), and whenever
preparation returns without raising, the produced driver cookies are
exactly one per entry carrying both a name and a value key, in order,
retaining that name and value; an entry whose truthy expiry attribute is
not numerically convertible (such as a date string) makes the `float`
conversion raise out of the preparation, so that no cookie list is produced
at all. -/
theorem c9_cookie_prep_amended :
    (∀ (raw : RawCookies) (pw : List PwCookie),
        prepare_playwright_cookies raw = Except.ok pw →
        (pw.map fun pc => (pc.name, pc.value)) =
          (cookieListOf raw).filterMap entryNameValue) ∧
    (∃ e, prepare_playwright_cookies dateExpiryBundle = Except.error e ∧
      e.kind = PyErrKind.valueErr) := by
  constructor
  · intro raw pw h
    unfold prepare_playwright_cookies at h
    by_cases hf : rawFalsy raw = true
    · rw [if_pos hf] at h
      simp only [Except.ok.injEq] at h
      subst h
      cases raw with
      | rnone => rfl
      | rstr s =>
          have hs : s = "" := by simpa [rawFalsy] using hf
          subst hs
          rfl
      | rlist l =>
          have hl : l = [] := by simpa [rawFalsy, List.isEmpty_iff] using hf
          subst hl
          rfl
      | rdict d =>
          have hd : d = [] := by simpa [rawFalsy, List.isEmpty_iff] using hf
          subst hd
          rfl
    · rw [if_neg hf] at h
      exact prepareCookiesLoop_ok_map _ pw h
  · exact ⟨_, rfl, rfl⟩

/-- Witness for C9 (amended): a JSON-string bundle with one complete entry
and one entry lacking a value yields exactly the one complete cookie, whose
name/value are the entry's. -/
theorem c9_cookie_prep_amended_witness :
    ([c9WitnessCookie].map fun pc => (pc.name, pc.value)) =
      (cookieListOf c9WitnessBundle).filterMap entryNameValue :=
  c9_cookie_prep_amended.1 c9WitnessBundle [c9WitnessCookie] rfl

/-! ## C6: checkpoint auth-failure classification -/

/-- Claim C6 counterexample: HTTP 301 is a redirect, yet the checkpoint executor
classifies it as a generic failure, not logged_out — only status 302 takes
the redirect branch. -/
theorem c6_redirect_cx :
    (make_request ckUserA 301 "").status = "failed" ∧
    (make_request ckUserA 301 "").status ≠ "logged_out" := by
  exact ⟨rfl, by decide⟩

/-- Claim C6 amended: for an account whose cookie preparation succeeds with
a non-empty bundle, a status fetch returning HTTP 401, 403 or 302 (the
redirect status the code detects) records outcome status logged_out, and
the metric-persistence guard of the single-user check is false — no points
update is issued. -/
theorem c6_auth_failure_amended (u : CkUser) (st : Nat) (body : String)
    (pw : List PwCookie)
    (hok : prepare_playwright_cookies u.cookies = Except.ok pw)
    (hne : pw.isEmpty = false)
    (hst : st = 401 ∨ st = 403 ∨ st = 302) :
    (make_request u st body).status = "logged_out" ∧
    check_single_user_persists (make_request u st body) = false := by
  unfold make_request
  simp only [hok, hne, Bool.false_eq_true, if_false]
  rcases hst with h | h | h <;> subst h <;> exact ⟨rfl, rfl⟩

/-- Witness for C6 (amended) at HTTP 403 for a concrete account. -/
theorem c6_auth_failure_amended_witness :
    (make_request ckUserA 403 "").status = "logged_out" ∧
    check_single_user_persists (make_request ckUserA 403 "") = false :=
  c6_auth_failure_amended ckUserA 403 "" [ckUserACookie] rfl rfl
    (Or.inr (Or.inl rfl))

/-! ## Statistics fold lemmas -/

theorem statsAdd_zero_left (b : BulkStats) :
    statsAdd { successful := 0, failed := 0, errors := 0 } b = b := by
  cases b
  simp [statsAdd]

theorem statsAdd_assoc (a b c : BulkStats) :
    statsAdd (statsAdd a b) c = statsAdd a (statsAdd b c) := by
  cases a; cases b; cases c
  simp [statsAdd, Nat.add_assoc]

theorem foldl_statsAdd (l : List GatherItem) (s : BulkStats) :
    l.foldl (fun s it => statsAdd s (statContrib it)) s =
      statsAdd s (bulk_stats l) := by
  induction l generalizing s with
  | nil =>
      cases s
      simp [bulk_stats, statsAdd]
  | cons x xs ih =>
      simp only [bulk_stats, List.foldl_cons] at *
      rw [ih, ih (statsAdd { successful := 0, failed := 0, errors := 0 } (statContrib x)),
        statsAdd_zero_left, statsAdd_assoc]

theorem bulk_stats_append (a b : List GatherItem) :
    bulk_stats (a ++ b) = statsAdd (bulk_stats a) (bulk_stats b) := by
  simp only [bulk_stats, List.foldl_append]
  rw [foldl_statsAdd]
  rfl

theorem bulk_stats_cons (x : GatherItem) (l : List GatherItem) :
    bulk_stats (x :: l) = statsAdd (statContrib x) (bulk_stats l) := by
  simp only [bulk_stats, List.foldl_cons]
  rw [foldl_statsAdd, statsAdd_zero_left]
  rfl

/-! ## C1: aggregate statistics of an all-success bulk run -/

/-- Claim C1: evaluating the bulk statistics fold at the Scenario A failing input
(5 accounts, always-succeeding stub driver, 1 repetition each).  Each
session returns its per-repetition result *list*, which the statistics loop
of `execute_bulk_order` only matches as an unexpected result type: the
broadcast aggregate is successful = 0, failed = 0, errors = 5 — not the
successful = 5, failed = 0, errored = 0 the claim (and the spec's
Scenario A) states. -/
theorem c1_bulk_stats_eval :
    (execute_single_order scenarioACfg (Except.ok ()) (fun _ => alwaysSucceedDriver)
        (fun _ => some ()) (fun _ => none)).1 =
      SessionOut.sessionResults [RepResult.completedRep "FN123" 100] ∧
    bulk_stats (List.replicate 5 (toGatherItem
      (execute_single_order scenarioACfg (Except.ok ()) (fun _ => alwaysSucceedDriver)
        (fun _ => some ()) (fun _ => none)).1)) =
      { successful := 0, failed := 0, errors := 5 } ∧
    ({ successful := 0, failed := 0, errors := 5 } : BulkStats) ≠
      { successful := 5, failed := 0, errors := 0 } := by
  refine ⟨by decide, by decide, by decide⟩

/-! ## C7: per-account failure isolation -/

/-- Claim C7: a setup/initialization failure of one account is caught and returned
as exactly one synthetic failed outcome (one dict, no Order records), whose
fold contribution is exactly one failed count; surrounding accounts'
contributions are untouched, the batch result keeps one entry per account;
and an exception escaping a task entirely (captured by gather) likewise
adds exactly one errored count without touching the others. -/
theorem c7_failure_isolation (cfg : OrderCfg) (e : PyErr)
    (drivers : Nat → RepDriver) (addrL cardL : Nat → Option Unit)
    (l1 l2 : List GatherItem) :
    execute_single_order cfg (Except.error e) drivers addrL cardL =
      (SessionOut.sessionFail ("Session initialization failed: " ++ e.msg), []) ∧
    bulk_stats (l1 ++ toGatherItem
        (execute_single_order cfg (Except.error e) drivers addrL cardL).1 :: l2) =
      statsAdd (bulk_stats l1)
        (statsAdd { successful := 0, failed := 1, errors := 0 } (bulk_stats l2)) ∧
    (l1 ++ toGatherItem
        (execute_single_order cfg (Except.error e) drivers addrL cardL).1 :: l2).length =
      l1.length + 1 + l2.length ∧
    bulk_stats (l1 ++ GatherItem.gexc e :: l2) =
      statsAdd (bulk_stats l1)
        (statsAdd { successful := 0, failed := 0, errors := 1 } (bulk_stats l2)) := by
  have hfail : execute_single_order cfg (Except.error e) drivers addrL cardL =
      (SessionOut.sessionFail ("Session initialization failed: " ++ e.msg), []) := rfl
  refine ⟨hfail, ?_, by simp; omega, ?_⟩
  · rw [hfail, bulk_stats_append, bulk_stats_cons]
    rfl
  · rw [bulk_stats_append, bulk_stats_cons]
    rfl

/-! ## Except monad reduction lemmas -/

theorem exbind_ok {ε α β : Type} (a : α) (f : α → Except ε β) :
    (Except.ok a : Except ε α) >>= f = f a := rfl

theorem expure_bind {ε α β : Type} (a : α) (f : α → Except ε β) :
    (pure a : Except ε α) >>= f = f a := rfl

theorem addProductsLoop_all_ok (d : RepDriver)
    (h : ∀ j, d.addProduct j = Except.ok true) :
    ∀ n i, addProductsLoop d n i = Except.ok () := by
  intro n
  induction n with
  | zero => intro i; rfl
  | succ k ih =>
      intro i
      simp [addProductsLoop, h i, exbind_ok, ih]

theorem run_repetition_steps_total_check (cfg : OrderCfg) (d : RepDriver)
    (n1 n2 : Nat) (cpn : Bool) (t : ℚ)
    (h1 : d.clearAddresses = Except.ok n1)
    (h2 : d.clearCart = Except.ok n2)
    (h3 : ∀ j, d.addProduct j = Except.ok true)
    (h4 : d.gotoCart = Except.ok ())
    (h5 : d.applyCoupon = Except.ok cpn)
    (h6 : d.getCartTotal = Except.ok t)
    (hviol : (∃ m, cfg.max_cart_value = some m ∧ m ≠ 0 ∧ m < t) ∨ t ≤ 0) :
    ∃ er, run_repetition_steps cfg d = Except.error er ∧
      er.kind = PyErrKind.valueErr := by
  unfold run_repetition_steps
  rw [h1, h2, addProductsLoop_all_ok d h3 cfg.numProducts 0, h4, h5, h6]
  simp only [exbind_ok]
  rcases hviol with ⟨m, hm, hne0, hlt⟩ | hle
  · simp only [hm]
    rw [if_pos hne0, if_pos (show t > m from hlt)]
    exact ⟨_, rfl, rfl⟩
  · cases hmc : cfg.max_cart_value with
    | none =>
        simp only [hmc, expure_bind]
        rw [if_pos hle]
        exact ⟨_, rfl, rfl⟩
    | some m =>
        simp only [hmc]
        by_cases hm0 : m ≠ 0
        · rw [if_pos hm0]
          by_cases hgt : t > m
          · rw [if_pos hgt]
            exact ⟨_, rfl, rfl⟩
          · rw [if_neg hgt]
            simp only [expure_bind]
            rw [if_pos hle]
            exact ⟨_, rfl, rfl⟩
        · rw [if_neg hm0]
          simp only [expure_bind]
          rw [if_pos hle]
          exact ⟨_, rfl, rfl⟩

/-! ## C5: TOTAL_CHECK business rule -/

/-- Claim C5 counterexample: with a configured max-cart-value ceiling of 0.0
(the config model permits it and the route forwards it unchanged) and an
observed total of 100 exceeding it, the source's truthiness guard treats
the 0.0 ceiling as unset and skips the check: the repetition completes and
its Order is completed, not failed. -/
theorem c5_zero_ceiling_cx :
    run_repetition_recorded zeroCeilingCfg alwaysSucceedDriver =
      (RepResult.completedRep "FN123" 100, OrderStat.completed) := by
  decide

/-- Claim C5 amended: when the steps before TOTAL_CHECK succeed and the
observed cart total either exceeds a configured *non-zero* max-cart-value
ceiling or is non-positive, the repetition fails with the ValueError the
source raises there (the BusinessRuleViolation classification) and the
repetition's Order ends in the terminal failed status — never left pending
or processing.  (A configured ceiling of 0.0 is falsy in the source's
truthiness guard and disables the ceiling check.) -/
theorem c5_total_check_business_rule (cfg : OrderCfg) (d : RepDriver)
    (n1 n2 : Nat) (cpn : Bool) (t : ℚ)
    (h1 : d.clearAddresses = Except.ok n1)
    (h2 : d.clearCart = Except.ok n2)
    (h3 : ∀ j, d.addProduct j = Except.ok true)
    (h4 : d.gotoCart = Except.ok ())
    (h5 : d.applyCoupon = Except.ok cpn)
    (h6 : d.getCartTotal = Except.ok t)
    (hviol : (∃ m, cfg.max_cart_value = some m ∧ m ≠ 0 ∧ m < t) ∨ t ≤ 0) :
    ∃ er, run_repetition_recorded cfg d = (RepResult.failedRep er, OrderStat.failed) ∧
      er.kind = PyErrKind.valueErr ∧
      (run_repetition_recorded cfg d).2.isTerminal = true := by
  obtain ⟨er, her, hk⟩ :=
    run_repetition_steps_total_check cfg d n1 n2 cpn t h1 h2 h3 h4 h5 h6 hviol
  refine ⟨er, ?_, hk, ?_⟩
  · unfold run_repetition_recorded
    rw [her]
  · unfold run_repetition_recorded
    rw [her]
    rfl

/-- Witness for C5 (amended): ceiling 500, observed total 999 — the
repetition fails with a ValueError-classified error and a terminal Order. -/
theorem c5_total_check_business_rule_witness :
    ∃ er, run_repetition_recorded ceilingCfg overTotalDriver =
        (RepResult.failedRep er, OrderStat.failed) ∧
      er.kind = PyErrKind.valueErr ∧
      (run_repetition_recorded ceilingCfg overTotalDriver).2.isTerminal = true :=
  c5_total_check_business_rule ceilingCfg overTotalDriver 0 0 true 999
    rfl rfl (fun _ => rfl) rfl rfl rfl
    (Or.inl ⟨500, rfl, by norm_num, by norm_num⟩)

/-! ## C4: missing dependency scope -/

/-- Claim C4 counterexample: with 2 requested repetitions and a missing configured
address, the session returns a single synthetic session-level failure and
executes no repetition at all (no Order is created) — the remaining
repetitions do not run, contradicting the claim that only the current
repetition is aborted. -/
theorem c4_dependency_abort_cx :
    execute_single_order twoRepCfg (Except.ok ()) (fun _ => alwaysSucceedDriver)
        (fun _ => none) (fun _ => none) =
      (SessionOut.sessionFail "Session initialization failed: Address not found: addr-1",
        []) := by
  decide

/-- Claim C4 amended: a dependency-resolution failure (missing address, or card
payment with a missing stored card or absent inline details) in the first
repetition escapes the per-repetition boundary and aborts the whole
account's session: the account yields one synthetic failed outcome and no
per-repetition outcomes or Order records. -/
theorem c4_dependency_abort_amended (cfg : OrderCfg) (drivers : Nat → RepDriver)
    (addrL cardL : Nat → Option Unit) (e : PyErr)
    (hmode : cfg.mode = ExecMode.full_automation)
    (hrep : 0 < cfg.repetition_count)
    (hdep : resolve_deps cfg (addrL 0) (cardL 0) = Except.error e) :
    execute_single_order cfg (Except.ok ()) drivers addrL cardL =
      (SessionOut.sessionFail ("Session initialization failed: " ++ e.msg), []) := by
  unfold execute_single_order
  rw [hmode, if_neg (show ¬ (ExecMode.full_automation = ExecMode.test_login_mode) by decide)]
  obtain ⟨k, hk⟩ : ∃ k, cfg.repetition_count = k + 1 :=
    ⟨cfg.repetition_count - 1, by omega⟩
  rw [hk]
  simp only [session_loop, hdep, List.reverse_nil]

/-- Witness for C4 (amended): card payment with a stored-card reference the
Store cannot find. -/
theorem c4_dependency_abort_amended_witness :
    execute_single_order cardCfg (Except.ok ()) (fun _ => alwaysSucceedDriver)
        (fun _ => some ()) (fun _ => none) =
      (SessionOut.sessionFail ("Session initialization failed: " ++ "Card not found: card-9"),
        []) :=
  c4_dependency_abort_amended cardCfg (fun _ => alwaysSucceedDriver)
    (fun _ => some ()) (fun _ => none)
    { kind := PyErrKind.exceptionErr, msg := "Card not found: card-9" }
    rfl (by decide) rfl

/-! ## Counting lemmas for `List.set` -/

theorem count_set_incr {α : Type} [DecidableEq α] :
    ∀ (l : List α) (i : Nat) (old a : α), l.get? i = some old → old ≠ a →
      (l.set i a).count a = l.count a + 1 := by
  intro l
  induction l with
  | nil => intro i old a h _; simp at h
  | cons x xs ih =>
      intro i old a h hne
      cases i with
      | zero =>
          simp only [List.get?] at h
          obtain rfl : x = old := by injection h
          simp [List.count_cons, hne, Ne.symm hne]
      | succ j =>
          simp only [List.get?] at h
          simp only [List.set, List.count_cons]
          rw [ih j old a h hne]
          omega

theorem count_set_decr {α : Type} [DecidableEq α] :
    ∀ (l : List α) (i : Nat) (old a : α), l.get? i = some old → old ≠ a →
      (l.set i a).count old + 1 = l.count old := by
  intro l
  induction l with
  | nil => intro i old a h _; simp at h
  | cons x xs ih =>
      intro i old a h hne
      cases i with
      | zero =>
          simp only [List.get?] at h
          obtain rfl : x = old := by injection h
          simp [List.count_cons, hne, Ne.symm hne]
      | succ j =>
          simp only [List.get?] at h
          simp only [List.set, List.count_cons]
          rw [← ih j old a h hne]
          omega

/-- Semaphore invariant: running invocations plus free slots always equal
the concurrency limit. -/
theorem gate_inv {limit n : Nat} {s : GateState} (h : GateReach limit n s) :
    runningCount s + s.avail = limit := by
  unfold GateReach at h
  induction h with
  | refl =>
      simp [gateInit, runningCount, List.count_replicate]
  | tail _ hstep ih =>
      cases hstep with
      | acquire i hget ha =>
          have hc := count_set_incr _ i _ Phase.running hget (by decide)
          simp only [runningCount] at ih ⊢
          rw [hc]
          omega
      | release i hget =>
          have hc := count_set_decr _ i _ Phase.done hget (by decide)
          simp only [runningCount] at ih ⊢
          omega

/-! ## C2: concurrency ceiling -/

/-- Claim C2: in every state the cooperative scheduler can reach from a bulk
dispatch of n invocations under semaphore limit C, at most C invocations
are simultaneously running; and when exactly C are running, no waiting
invocation can acquire (no slot is free), so further invocations stay
suspended until a running one exits and releases its slot. -/
theorem c2_concurrency_bound (limit n : Nat) (s : GateState)
    (h : GateReach limit n s) :
    runningCount s ≤ limit ∧
    (runningCount s = limit →
      ∀ i, ¬ (s.tasks.get? i = some Phase.waiting ∧ 0 < s.avail)) := by
  have inv := gate_inv h
  refine ⟨by omega, ?_⟩
  intro hfull i hcontra
  obtain ⟨-, hav⟩ := hcontra
  omega

/-- Witness for C2 at the initial state of a dispatch with limit 2 over 3
invocations. -/
theorem c2_concurrency_bound_witness :
    runningCount (gateInit 2 3) ≤ 2 ∧
    (runningCount (gateInit 2 3) = 2 →
      ∀ i, ¬ ((gateInit 2 3).tasks.get? i = some Phase.waiting ∧
        0 < (gateInit 2 3).avail)) :=
  c2_concurrency_bound 2 3 (gateInit 2 3) Relation.ReflTransGen.refl

/-! ## C8: task counters and terminal transition -/

/-- One lifecycle event preserves the task-counter invariant. -/
theorem ck_step_inv {x y : CkState} (hstep : CkStep x y)
    (ih1 : 0 ≤ x.total) (ih2 : x.resolved = false → x.processed = 0)
    (ih3 : (x.processed : Int) ≤ x.total)
    (_ih4 : x.status ≠ TStatus.processing →
      ((x.processed : Int) = x.total ∨
        (x.status = TStatus.failed ∧ x.processed = 0))) :
    0 ≤ y.total ∧ (y.resolved = false → y.processed = 0) ∧
      ((y.processed : Int) ≤ y.total) ∧
      (y.status ≠ TStatus.processing →
        ((y.processed : Int) = y.total ∨
          (y.status = TStatus.failed ∧ y.processed = 0))) := by
  cases hstep with
  | startupFail hs hr =>
      exact ⟨ih1, fun _ => ih2 hr, ih3, fun _ => Or.inr ⟨rfl, ih2 hr⟩⟩
  | resolve m hm hs hr =>
      refine ⟨?_, ?_, ?_, ?_⟩
      · show ((0 : Int) ≤ (m : Int))
        exact_mod_cast Nat.zero_le m
      · intro hco
        exact absurd (show (true : Bool) = false from hco) (by decide)
      · show ((x.processed : Int) ≤ (m : Int))
        rw [ih2 hr]
        exact_mod_cast Nat.zero_le m
      · intro hne
        exact absurd hs hne
  | append hs hr hp =>
      refine ⟨ih1, ?_, ?_, ?_⟩
      · intro hco
        have hx : x.resolved = false := hco
        rw [hr] at hx
        exact absurd hx (by decide)
      · show (((x.processed + 1 : Nat) : Int) ≤ x.total)
        push_cast
        omega
      · intro hne
        exact absurd hs hne
  | complete hs hr hp =>
      refine ⟨ih1, ?_, ih3, fun _ => Or.inl hp⟩
      · intro hco
        have hx : x.resolved = false := hco
        rw [hr] at hx
        exact absurd hx (by decide)

/-- Lifecycle invariant of a checkpoint bulk task with a non-negative
requested window. -/
theorem ck_inv (rs re : Int) (hw : 0 ≤ re - rs + 1) (s : CkState)
    (h : CkReach (ckInit rs re) s) :
    0 ≤ s.total ∧ (s.resolved = false → s.processed = 0) ∧
      ((s.processed : Int) ≤ s.total) ∧
      (s.status ≠ TStatus.processing →
        ((s.processed : Int) = s.total ∨
          (s.status = TStatus.failed ∧ s.processed = 0))) := by
  unfold CkReach at h
  induction h with
  | refl =>
      refine ⟨hw, fun _ => rfl, by simpa using hw, fun hne => absurd rfl hne⟩
  | tail _ hstep ih =>
      obtain ⟨ih1, ih2, ih3, ih4⟩ := ih
      exact ck_step_inv hstep ih1 ih2 ih3 ih4

/-- Claim C8 counterexample: a checkpoint task created with the inverted range
[3,1] is reachable (it is the creation state itself) and its status query
reports processed = 0 strictly greater than total = -1, violating the
claimed unconditional processed ≤ total invariant. -/
theorem c8_inverted_range_cx :
    CkReach (ckInit 3 1) (ckInit 3 1) ∧
    ¬ (((get_task_status (ckInit 3 1)).2.1 : Int) ≤ (get_task_status (ckInit 3 1)).2.2) :=
  ⟨Relation.ReflTransGen.refl, by decide⟩

/-- Claim C8 amended: for every checkpoint bulk task whose requested window
size end - start + 1 is non-negative, every reachable state's status query
reports processed ≤ total, and the status is terminal only once
processed = total — except a startup-level abort, which is failed with
processed = 0. -/
theorem c8_progress_invariant_amended (rs re : Int) (hw : 0 ≤ re - rs + 1)
    (s : CkState) (h : CkReach (ckInit rs re) s) :
    (((get_task_status s).2.1 : Int) ≤ (get_task_status s).2.2) ∧
    ((get_task_status s).1 ≠ TStatus.processing →
      (((get_task_status s).2.1 : Int) = (get_task_status s).2.2 ∨
        ((get_task_status s).1 = TStatus.failed ∧ (get_task_status s).2.1 = 0))) := by
  obtain ⟨-, -, h3, h4⟩ := ck_inv rs re hw s h
  exact ⟨h3, h4⟩

/-- Witness for C8 (amended) at the creation state of a task over range
[1,5]. -/
theorem c8_progress_invariant_amended_witness :
    (((get_task_status (ckInit 1 5)).2.1 : Int) ≤ (get_task_status (ckInit 1 5)).2.2) ∧
    ((get_task_status (ckInit 1 5)).1 ≠ TStatus.processing →
      (((get_task_status (ckInit 1 5)).2.1 : Int) = (get_task_status (ckInit 1 5)).2.2 ∨
        ((get_task_status (ckInit 1 5)).1 = TStatus.failed ∧
          (get_task_status (ckInit 1 5)).2.1 = 0))) :=
  c8_progress_invariant_amended 1 5 (by decide) (ckInit 1 5) Relation.ReflTransGen.refl

end TiraOrderAuto
